import Mathlib

/-!
Shallow embedding of the FileMove repository's core pipeline: the title
parser, destination path builder and collision-safe mover of
`redmine_file_organizer.py`, the settle probe and retry loop of
`src/file_watcher.py`, and the processed-set claiming of
`DownloadsMonitor._on_file_created`.

Strings are modelled as `List Char` (Python `str`), the filesystem as a
finite association list from paths (lists of components, as fed to
`os.path.join`) to abstract file contents, and wall-clock or mtime values
as explicit `DateTime` records passed in where the Python code calls
`datetime.now()` / `os.path.getmtime`.
-/

namespace FileMove

/-! ### Python string primitives -/

/-- The whitespace characters removed by Python `str.strip()`. -/
def isPySpace (c : Char) : Bool :=
  c == ' ' || c == '\t' || c == '\n' || c == '\r' || c == '\x0b' || c == '\x0c'

/-- Removal of leading whitespace, the left half of `str.strip()`. -/
def lstrip (s : List Char) : List Char := s.dropWhile isPySpace

/-- Removal of trailing whitespace, the right half of `str.strip()`. -/
def rstrip (s : List Char) : List Char := List.rdropWhile isPySpace s

/-- Python `str.strip()`: trailing then leading whitespace removed (the
order is immaterial). -/
def pyStrip (s : List Char) : List Char := rstrip (lstrip s)

/-! ### `RedmineFileOrganizer.parse_ticket_title`

The Python code strips the title, then tries the regex
`^\[([^\]]+)\]\[([^\]]+)\](.+)$` (pattern3) and, only if that fails,
`^\[([^\]]+)\](.+)$` (pattern2).  Each `\[([^\]]+)\]` consumes a leading
`[`, a non-empty run of non-`]` characters, and the closing `]`; since the
class excludes `]` the match is deterministic.  `(.+)$` on the stripped
title (which cannot end in a newline) succeeds exactly when the remainder
is non-empty and newline-free, because `.` does not match a newline and
`$` only matches at the end or before a final newline. -/

/-- One `\[([^\]]+)\]` group: returns the bracketed content and the rest. -/
def splitBracket (s : List Char) : Option (List Char × List Char) :=
  match s with
  | '[' :: t =>
    let a := t.takeWhile (fun c => c != ']')
    match t.dropWhile (fun c => c != ']') with
    | ']' :: r => if a = [] then none else some (a, r)
    | _ => none
  | _ => none

/-- The trailing `(.+)$` of both patterns, applied to a stripped title. -/
def matchRest (s : List Char) : Option (List Char) :=
  if s = [] then none
  else if s.contains '\n' then none
  else some s

/-- The full 3-level pattern `^\[([^\]]+)\]\[([^\]]+)\](.+)$`. -/
def match3 (s : List Char) : Option (List Char × List Char × List Char) :=
  match splitBracket s with
  | none => none
  | some (a, r1) =>
    match splitBracket r1 with
    | none => none
    | some (b, r2) =>
      match matchRest r2 with
      | none => none
      | some r => some (a, b, r)

/-- The full 2-level pattern `^\[([^\]]+)\](.+)$`. -/
def match2 (s : List Char) : Option (List Char × List Char) :=
  match splitBracket s with
  | none => none
  | some (a, r1) =>
    match matchRest r1 with
    | none => none
    | some r => some (a, r)

/-- The dict returned by `parse_ticket_title`. -/
structure ParsedTitle where
  folder1 : List Char
  folder2 : List Char
  folder3 : Option (List Char)
  levels : Nat
deriving DecidableEq

/-- Embedding of `RedmineFileOrganizer.parse_ticket_title`. -/
def parse_ticket_title (title : List Char) : Option ParsedTitle :=
  let s := pyStrip title
  match match3 s with
  | some (a, b, r) =>
    some { folder1 := a, folder2 := b, folder3 := some (pyStrip r), levels := 3 }
  | none =>
    match match2 s with
    | some (a, r) =>
      some { folder1 := a, folder2 := pyStrip r, folder3 := none, levels := 2 }
    | none => none

/-! ### Dates and `strftime` -/

/-- A broken-down timestamp, standing for a Python `datetime`. -/
structure DateTime where
  year : Nat
  month : Nat
  day : Nat
  hour : Nat
  minute : Nat
  second : Nat
deriving DecidableEq

def pad2 (n : Nat) : String := if n < 10 then "0" ++ toString n else toString n

def pad4 (n : Nat) : String :=
  if n < 10 then "000" ++ toString n
  else if n < 100 then "00" ++ toString n
  else if n < 1000 then "0" ++ toString n
  else toString n

/-- Python `strftime("%Y%m%d")`. -/
def fmtDate (t : DateTime) : String := pad4 t.year ++ pad2 t.month ++ pad2 t.day

/-- Python `strftime("%Y%m%d_%H%M%S")`. -/
def fmtTimestamp (t : DateTime) : String :=
  fmtDate t ++ "_" ++ pad2 t.hour ++ pad2 t.minute ++ pad2 t.second

/-! ### `RedmineFileOrganizer.build_target_path`

`os.path.join(a, b, c, ...)` is modelled as the list of its components;
`renderPath` displays such a list with `/` separators.  The
`os.path.exists(file_path)` / `os.path.getmtime` pair is modelled by an
`Option DateTime`: `some mt` when the file exists with modification time
`mt`, `none` when it does not (then the code falls back to
`datetime.now()`, the `now` argument). -/

def build_target_path (base : String) (parsed_title : Option ParsedTitle)
    (mtime : Option DateTime) (now : DateTime) : Option (List String) :=
  match parsed_title with
  | none => none
  | some p =>
    let date_folder := fmtDate (mtime.getD now)
    if p.levels = 3 then
      some [base, p.folder1.asString, p.folder2.asString,
        (p.folder3.getD []).asString, date_folder]
    else if p.levels = 2 then
      some [base, p.folder1.asString, p.folder2.asString, date_folder]
    else none

def renderPath (components : List String) : String :=
  String.intercalate "/" components

/-! ### Filesystem model and `RedmineFileOrganizer.move_file`

A path is its list of components; the filesystem is an association list
from paths to abstract contents (a `Nat`), so that overwriting is
observable.  `os.makedirs` only creates directories, which the model does
not track.  `shutil.move` either succeeds (remove the source entry, bind
the target path to the source's contents, clobbering any previous entry at
the target, as `copy2` over an existing file does) or raises; a raised
exception is injected through the `moveRaises` argument (`some msg` makes
the `try` block fail with message `msg`, leaving the filesystem as it
was). -/

abbrev FsPath := List String

abbrev FileSys := List (FsPath × Nat)

/-- Python `os.path.exists`. -/
def pexists (fs : FileSys) (p : FsPath) : Bool := fs.any (fun e => e.1 == p)

/-- Python `os.path.basename` on a component list. -/
def basename (p : FsPath) : String := p.getLastD ""

/-- Python `os.path.splitext` on a bare filename: split at the last dot, unless
every character before it is a dot (so `.bashrc` has no extension). -/
def splitext (name : List Char) : List Char × List Char :=
  match name.reverse.findIdx? (fun c => c == '.') with
  | none => (name, [])
  | some j =>
    let i := name.length - 1 - j
    if (name.take i).all (fun c => c == '.') then (name, [])
    else (name.take i, name.drop i)

/-- The collision filename `f"{base}_{timestamp}{ext}"`. -/
def suffixedName (now : DateTime) (filename : String) : String :=
  let be := splitext filename.data
  be.1.asString ++ "_" ++ fmtTimestamp now ++ be.2.asString

/-- A successful `shutil.move(src, tgt)`. -/
def shutil_move (fs : FileSys) (src tgt : FsPath) : FileSys :=
  match fs.find? (fun e => e.1 == src) with
  | some e => fs.filter (fun x => x.1 != src && x.1 != tgt) ++ [(tgt, e.2)]
  | none => fs

/-- The `(success, payload)` pair returned by `move_file`: `(True,
target_path)` or `(False, message)`. -/
inductive MoveResult where
  | ok (target : FsPath)
  | err (msg : String)
deriving DecidableEq

/-- Embedding of `RedmineFileOrganizer.move_file`. -/
def move_file (fs : FileSys) (now : DateTime) (moveRaises : Option String)
    (source_path : FsPath) (target_folder : FsPath) : FileSys × MoveResult :=
  if pexists fs source_path = false then
    (fs, MoveResult.err "元ファイルが見つかりません")
  else
    let filename := basename source_path
    let target_path := target_folder ++ [filename]
    let target_path :=
      if pexists fs target_path then target_folder ++ [suffixedName now filename]
      else target_path
    match moveRaises with
    | some e => (fs, MoveResult.err e)
    | none => (shutil_move fs source_path target_path, MoveResult.ok target_path)

/-! ### `DownloadsMonitor._on_file_created`

The monitor state is the `processed_files` set; `ex` models
`os.path.exists`.  The returned `Bool` records whether the callback (the
downstream pipeline) was invoked. -/

structure MonitorState where
  processed_files : List String
deriving DecidableEq

def on_file_created (ex : String → Bool) (st : MonitorState) (file_path : String) :
    MonitorState × Bool :=
  if st.processed_files.contains file_path then (st, false)
  else if ex file_path = false then (st, false)
  else ({ processed_files := file_path :: st.processed_files }, true)

/-! ### `FileCreationHandler` of `src/file_watcher.py`

`_is_file_ready` performs two `os.path.getsize` calls; each is modelled as
`Option Nat` (`none` when the call raises `OSError`/`FileNotFoundError`,
in which case the `except` clause returns `False`).  `_process_file`
probes readiness up to `max_attempts = 10` times; the probe outcome of
attempt `i` is `ready i`, and the result is the index of the attempt at
which the callback fired, or `none` when the file was silently
abandoned. -/

def is_file_ready (size1 size2 : Option Nat) : Bool :=
  match size1, size2 with
  | some initial_size, some final_size =>
    initial_size == final_size && decide (0 < final_size)
  | _, _ => false

def settleAttempts (ready : Nat → Bool) : Nat → Nat → Option Nat
  | 0, _ => none
  | n + 1, i => if ready i then some i else settleAttempts ready n (i + 1)

def process_file (isfile : Bool) (ready : Nat → Bool) : Option Nat :=
  if isfile then settleAttempts ready 10 0 else none

/-! ### Interleaving model of two concurrent `_on_file_created` calls

Two `threading.Timer` callbacks run `_on_file_created` for the same path
concurrently.  Each consists of two separately atomic actions: the
membership test `file_path in self.processed_files` (together with the
`os.path.exists` test, taken to succeed), and the insertion
`self.processed_files.add(file_path)` followed by the callback.  There is
no lock around the pair.  A schedule is the list of which thread takes the
next step; `calls` counts callback invocations. -/

inductive RacePhase where
  | start
  | checked (proceed : Bool)
  | done
deriving DecidableEq

structure RaceState where
  member : Bool
  calls : Nat
  t1 : RacePhase
  t2 : RacePhase
deriving DecidableEq

/-- One atomic step of a thread: returns its new phase, the new membership
flag, and how many callback invocations the step performed. -/
def threadStep (member : Bool) (ph : RacePhase) : RacePhase × Bool × Nat :=
  match ph with
  | RacePhase.start => (RacePhase.checked (!member), member, 0)
  | RacePhase.checked true => (RacePhase.done, true, 1)
  | RacePhase.checked false => (RacePhase.done, member, 0)
  | RacePhase.done => (RacePhase.done, member, 0)

def raceStep (s : RaceState) (who : Bool) : RaceState :=
  if who then
    let r := threadStep s.member s.t1
    { s with t1 := r.1, member := r.2.1, calls := s.calls + r.2.2 }
  else
    let r := threadStep s.member s.t2
    { s with t2 := r.1, member := r.2.1, calls := s.calls + r.2.2 }

def raceRun (sched : List Bool) : RaceState :=
  sched.foldl raceStep
    { member := false, calls := 0, t1 := RacePhase.start, t2 := RacePhase.start }

/-! ### Helper lemmas on stripping -/

theorem mem_rstrip {c : Char} {l : List Char} (h : c ∈ rstrip l) : c ∈ l := by
  unfold rstrip List.rdropWhile at h
  rw [List.mem_reverse] at h
  have hsub := List.dropWhile_sublist (l := l.reverse) isPySpace
  have := hsub.subset h
  rwa [List.mem_reverse] at this

theorem rstrip_ne_nil_of_pyStrip {l : List Char} (h : pyStrip l ≠ []) : rstrip l ≠ [] := by
  intro h0
  apply h
  have hall : ∀ c ∈ l, isPySpace c = true := by
    have : List.rdropWhile isPySpace l = [] := h0
    exact List.rdropWhile_eq_nil_iff.mp this
  have hl : lstrip l = [] := List.dropWhile_eq_nil_iff.mpr hall
  unfold pyStrip
  rw [hl]
  rfl

theorem rstrip_append (pre rest : List Char) (h : rstrip rest ≠ []) :
    rstrip (pre ++ rest) = pre ++ rstrip rest := by
  have hne : (rest.reverse.dropWhile isPySpace).isEmpty = false := by
    cases hh : rest.reverse.dropWhile isPySpace with
    | nil =>
      exfalso
      apply h
      show (rest.reverse.dropWhile isPySpace).reverse = []
      rw [hh]
      rfl
    | cons a t => rfl
  show ((pre ++ rest).reverse.dropWhile isPySpace).reverse = pre ++ rstrip rest
  rw [List.reverse_append, List.dropWhile_append, hne]
  simp [rstrip, List.rdropWhile]

theorem rstrip_cons (a : Char) (t : List Char) :
    rstrip (a :: t) =
      if rstrip t = [] then (if isPySpace a then [] else [a]) else a :: rstrip t := by
  show ((a :: t).reverse.dropWhile isPySpace).reverse = _
  rw [List.reverse_cons, List.dropWhile_append]
  by_cases h : t.reverse.dropWhile isPySpace = []
  · have h0 : rstrip t = [] := by
      show (t.reverse.dropWhile isPySpace).reverse = []
      rw [h]
      rfl
    rw [h, if_pos h0]
    by_cases ha : isPySpace a = true
    · simp [List.dropWhile, ha]
    · simp only [List.isEmpty_nil, if_true]
      rw [List.dropWhile_cons_of_neg (by simp [ha]), if_neg (by simp [ha])]
      rfl
  · have h0 : rstrip t ≠ [] := by
      show (t.reverse.dropWhile isPySpace).reverse ≠ []
      simp [h]
    have hie : (t.reverse.dropWhile isPySpace).isEmpty = false := by
      cases hh : t.reverse.dropWhile isPySpace with
      | nil => exact absurd hh h
      | cons x xs => rfl
    rw [hie, if_neg h0]
    simp [rstrip, List.rdropWhile]

theorem lstrip_rstrip (l : List Char) : lstrip (rstrip l) = rstrip (lstrip l) := by
  induction l with
  | nil => rfl
  | cons a t ih =>
    rw [rstrip_cons]
    by_cases ha : isPySpace a = true
    · have hl : lstrip (a :: t) = lstrip t := by
        show (a :: t).dropWhile isPySpace = t.dropWhile isPySpace
        rw [List.dropWhile_cons_of_pos ha]
      by_cases h0 : rstrip t = []
      · rw [if_pos h0, if_pos ha, hl]
        have hall : ∀ c ∈ t, isPySpace c = true := by
          have : List.rdropWhile isPySpace t = [] := h0
          exact List.rdropWhile_eq_nil_iff.mp this
        have hlt : lstrip t = [] := List.dropWhile_eq_nil_iff.mpr hall
        rw [hlt]
        rfl
      · rw [if_neg h0, hl]
        show (a :: rstrip t).dropWhile isPySpace = _
        rw [List.dropWhile_cons_of_pos ha]
        exact ih
    · have hl : lstrip (a :: t) = a :: t := by
        show (a :: t).dropWhile isPySpace = a :: t
        rw [List.dropWhile_cons_of_neg (by simp [ha])]
      by_cases h0 : rstrip t = []
      · rw [if_pos h0, if_neg (by simp [ha]), hl, rstrip_cons, if_pos h0,
          if_neg (by simp [ha])]
        show [a].dropWhile isPySpace = [a]
        rw [List.dropWhile_cons_of_neg (by simp [ha])]
      · rw [if_neg h0, hl, rstrip_cons, if_neg h0]
        show (a :: rstrip t).dropWhile isPySpace = a :: rstrip t
        rw [List.dropWhile_cons_of_neg (by simp [ha])]

theorem pyStrip_rstrip (l : List Char) : pyStrip (rstrip l) = pyStrip l := by
  unfold pyStrip
  rw [lstrip_rstrip]
  show List.rdropWhile isPySpace (List.rdropWhile isPySpace (lstrip l)) = _
  exact List.rdropWhile_idempotent isPySpace (lstrip l)

theorem pyStrip_bracket_head (X : List Char) : pyStrip ('[' :: X) = rstrip ('[' :: X) := by
  unfold pyStrip lstrip
  rw [List.dropWhile_cons_of_neg (by decide)]

/-! ### Helper lemmas on the pattern matchers -/

theorem splitBracket_spec (A r : List Char) (hA : A ≠ []) (hA2 : ']' ∉ A) :
    splitBracket ('[' :: (A ++ ']' :: r)) = some (A, r) := by
  have h1 : ∀ c ∈ A, (c != ']') = true := by
    intro c hc
    rw [bne_iff_ne]
    intro h
    exact hA2 (h ▸ hc)
  have ht : (A ++ ']' :: r).takeWhile (fun c => c != ']') = A := by
    rw [List.takeWhile_append_of_pos h1, List.takeWhile_cons_of_neg (by decide)]
    simp
  have hd : (A ++ ']' :: r).dropWhile (fun c => c != ']') = ']' :: r := by
    rw [List.dropWhile_append_of_pos h1, List.dropWhile_cons_of_neg (by decide)]
  simp [splitBracket, ht, hd, hA]

theorem matchRest_spec (r : List Char) (h1 : r ≠ []) (h2 : '\n' ∉ r) :
    matchRest r = some r := by
  have hc : r.contains '\n' = false := by
    cases hh : r.contains '\n'
    · rfl
    · exact absurd (List.elem_iff.mp hh) h2
  simp only [matchRest, hc]
  rw [if_neg h1]
  rfl

theorem match3_spec (A B rest : List Char) (hA : A ≠ []) (hA2 : ']' ∉ A)
    (hB : B ≠ []) (hB2 : ']' ∉ B) (hr : rest ≠ []) (hr2 : '\n' ∉ rest) :
    match3 ('[' :: (A ++ ']' :: ('[' :: (B ++ ']' :: rest)))) = some (A, B, rest) := by
  unfold match3
  simp [splitBracket_spec A ('[' :: (B ++ ']' :: rest)) hA hA2,
    splitBracket_spec B rest hB hB2, matchRest_spec rest hr hr2]

theorem match2_spec (A rest : List Char) (hA : A ≠ []) (hA2 : ']' ∉ A)
    (hr : rest ≠ []) (hr2 : '\n' ∉ rest) :
    match2 ('[' :: (A ++ ']' :: rest)) = some (A, rest) := by
  unfold match2
  simp [splitBracket_spec A rest hA hA2, matchRest_spec rest hr hr2]

/-! ### Structural lemmas on `parse_ticket_title` -/

theorem parse3_spec (A B rest : List Char) (hA : A ≠ []) (hA2 : ']' ∉ A)
    (hB : B ≠ []) (hB2 : ']' ∉ B) (hr2 : '\n' ∉ rest) (hps : pyStrip rest ≠ []) :
    parse_ticket_title ('[' :: (A ++ ']' :: ('[' :: (B ++ ']' :: rest))))
      = some { folder1 := A, folder2 := B, folder3 := some (pyStrip rest), levels := 3 } := by
  have hrs : rstrip rest ≠ [] := rstrip_ne_nil_of_pyStrip hps
  have hshape : '[' :: (A ++ ']' :: ('[' :: (B ++ ']' :: rest)))
      = ('[' :: (A ++ ']' :: ('[' :: (B ++ [']'])))) ++ rest := by
    simp
  have hstrip : pyStrip ('[' :: (A ++ ']' :: ('[' :: (B ++ ']' :: rest))))
      = '[' :: (A ++ ']' :: ('[' :: (B ++ ']' :: rstrip rest))) := by
    rw [pyStrip_bracket_head, hshape, rstrip_append _ _ hrs]
    simp
  have hm3 := match3_spec A B (rstrip rest) hA hA2 hB hB2 hrs
    (fun hmem => hr2 (mem_rstrip hmem))
  simp only [parse_ticket_title]
  rw [hstrip, hm3]
  simp [pyStrip_rstrip]

theorem parse2_spec (A rest : List Char) (hA : A ≠ []) (hA2 : ']' ∉ A)
    (hr2 : '\n' ∉ rest) (hps : pyStrip rest ≠ [])
    (hm3 : match3 (pyStrip ('[' :: (A ++ ']' :: rest))) = none) :
    parse_ticket_title ('[' :: (A ++ ']' :: rest))
      = some { folder1 := A, folder2 := pyStrip rest, folder3 := none, levels := 2 } := by
  have hrs : rstrip rest ≠ [] := rstrip_ne_nil_of_pyStrip hps
  have hshape : '[' :: (A ++ ']' :: rest) = ('[' :: (A ++ [']'])) ++ rest := by
    simp
  have hstrip : pyStrip ('[' :: (A ++ ']' :: rest)) = '[' :: (A ++ ']' :: rstrip rest) := by
    rw [pyStrip_bracket_head, hshape, rstrip_append _ _ hrs]
    simp
  have hm2 := match2_spec A (rstrip rest) hA hA2 hrs (fun hmem => hr2 (mem_rstrip hmem))
  simp only [parse_ticket_title]
  rw [hm3, hstrip, hm2]
  simp [pyStrip_rstrip]

theorem parse_none_spec (title : List Char) (h3 : match3 (pyStrip title) = none)
    (h2 : match2 (pyStrip title) = none) : parse_ticket_title title = none := by
  simp only [parse_ticket_title]
  rw [h3, h2]

theorem strip_brackets_only (A B : List Char) :
    pyStrip ('[' :: (A ++ ']' :: ('[' :: (B ++ [']']))))
      = '[' :: (A ++ ']' :: ('[' :: (B ++ [']']))) := by
  have hshape : '[' :: (A ++ ']' :: ('[' :: (B ++ [']'])))
      = ('[' :: (A ++ ']' :: ('[' :: B))) ++ [']'] := by
    simp
  rw [pyStrip_bracket_head]
  show List.rdropWhile isPySpace _ = _
  rw [hshape, List.rdropWhile_concat_neg _ _ _ (by decide)]

theorem parse_brackets2_spec (A B : List Char) (hA : A ≠ []) (hA2 : ']' ∉ A)
    (hB : B ≠ []) (hB2 : ']' ∉ B) (hB3 : '\n' ∉ B) :
    parse_ticket_title ('[' :: (A ++ ']' :: ('[' :: (B ++ [']']))))
      = some ⟨A, '[' :: (B ++ [']']), none, 2⟩ := by
  have hnl : '\n' ∉ '[' :: (B ++ [']']) := by
    intro hmem
    rcases List.mem_cons.mp hmem with h | h
    · exact absurd h (by decide)
    · rcases List.mem_append.mp h with h2 | h2
      · exact hB3 h2
      · have := List.mem_singleton.mp h2
        exact absurd this (by decide)
  have hm3 : match3 ('[' :: (A ++ ']' :: ('[' :: (B ++ [']'])))) = none := by
    unfold match3
    rw [splitBracket_spec A ('[' :: (B ++ [']'])) hA hA2]
    have : splitBracket ('[' :: (B ++ ']' :: ([] : List Char))) = some (B, []) :=
      splitBracket_spec B [] hB hB2
    simp only [List.cons_ne_self]
    rw [this]
    rfl
  have hm2 := match2_spec A ('[' :: (B ++ [']'])) hA hA2 (by simp) hnl
  have hstrip2 : pyStrip ('[' :: (B ++ [']'])) = '[' :: (B ++ [']']) := by
    rw [pyStrip_bracket_head]
    show List.rdropWhile isPySpace _ = _
    have hshape : '[' :: (B ++ [']']) = ('[' :: B) ++ [']'] := by simp
    rw [hshape, List.rdropWhile_concat_neg _ _ _ (by decide)]
  simp only [parse_ticket_title]
  rw [strip_brackets_only, hm3, hm2]
  simp [hstrip2]

theorem parse_brackets1_spec (A : List Char) (hA : A ≠ []) (hA2 : ']' ∉ A) :
    parse_ticket_title ('[' :: (A ++ [']'])) = none := by
  have hstrip : pyStrip ('[' :: (A ++ [']'])) = '[' :: (A ++ [']']) := by
    rw [pyStrip_bracket_head]
    show List.rdropWhile isPySpace _ = _
    have hshape : '[' :: (A ++ [']']) = ('[' :: A) ++ [']'] := by simp
    rw [hshape, List.rdropWhile_concat_neg _ _ _ (by decide)]
  have hsb : splitBracket ('[' :: (A ++ ']' :: ([] : List Char))) = some (A, []) :=
    splitBracket_spec A [] hA hA2
  have hm3 : match3 ('[' :: (A ++ [']'])) = none := by
    unfold match3
    rw [hsb]
    rfl
  have hm2 : match2 ('[' :: (A ++ [']'])) = none := by
    unfold match2
    rw [hsb]
    rfl
  apply parse_none_spec
  · rw [hstrip, hm3]
  · rw [hstrip, hm2]

/-! ### Helper lemmas on `splitext`, `suffixedName` and `move_file` -/

theorem splitext_concat (l : List Char) : (splitext l).1 ++ (splitext l).2 = l := by
  unfold splitext
  cases h : l.reverse.findIdx? (fun c => c == '.') with
  | none => simp
  | some j =>
    by_cases hall : (l.take (l.length - 1 - j)).all (fun c => c == '.') = true
    · simp [hall]
    · simp [hall, List.take_append_drop]

theorem length_asString (l : List Char) : (List.asString l).length = l.length := rfl

theorem suffixedName_ne (now : DateTime) (f : String) : suffixedName now f ≠ f := by
  intro h
  have hlen := congrArg String.length h
  have hcat := congrArg List.length (splitext_concat f.data)
  rw [List.length_append] at hcat
  have hf : f.length = f.data.length := rfl
  unfold suffixedName at hlen
  simp only [String.length_append, length_asString] at hlen
  have hu : ("_" : String).length = 1 := rfl
  rw [hu, hf] at hlen
  omega

theorem shutil_move_spec (fs : FileSys) (src tgt : FsPath)
    (hsrc : pexists fs src = true) :
    ∃ c, shutil_move fs src tgt
      = fs.filter (fun x => x.1 != src && x.1 != tgt) ++ [(tgt, c)] := by
  rcases List.any_eq_true.mp hsrc with ⟨x, hx, hbeq⟩
  have hsome : (fs.find? (fun e => e.1 == src)).isSome :=
    List.find?_isSome.mpr ⟨x, hx, hbeq⟩
  rcases Option.isSome_iff_exists.mp hsome with ⟨w, hw⟩
  refine ⟨w.2, ?_⟩
  unfold shutil_move
  rw [hw]

/-! ### Helper lemmas on the settle retry loop -/

theorem settleAttempts_none (ready : Nat → Bool) :
    ∀ n i, (∀ j, i ≤ j → j < i + n → ready j = false) → settleAttempts ready n i = none := by
  intro n
  induction n with
  | zero => intro i h; rfl
  | succ m ih =>
    intro i h
    unfold settleAttempts
    rw [h i (le_refl i) (by omega)]
    simp only [Bool.false_eq_true, if_false]
    exact ih (i + 1) (fun j hj1 hj2 => h j (by omega) (by omega))

theorem settleAttempts_lt (ready : Nat → Bool) :
    ∀ n i j, settleAttempts ready n i = some j → j < i + n := by
  intro n
  induction n with
  | zero =>
    intro i j h
    simp [settleAttempts] at h
  | succ m ih =>
    intro i j h
    unfold settleAttempts at h
    by_cases hr : ready i = true
    · rw [hr] at h
      simp at h
      omega
    · have hrf : ready i = false := by
        cases hq : ready i
        · rfl
        · exact absurd hq hr
      rw [hrf] at h
      simp at h
      have := ih (i + 1) j h
      omega

/-! ### Claim theorems -/

/-- C1 counterexample: the title `"[Acme][P100]Door sensor broken"` matches
the 3-level pattern, with third segment `"Door sensor broken"`, so the
computed destination is `/data/Acme/P100/Door sensor broken/20240305` and
not `/data/Acme/P100/20240305` as the claim states. -/
theorem C1_end_to_end_counterexample :
    parse_ticket_title "[Acme][P100]Door sensor broken".data
      = some ⟨"Acme".data, "P100".data, some "Door sensor broken".data, 3⟩ ∧
    (build_target_path "/data"
        (parse_ticket_title "[Acme][P100]Door sensor broken".data)
        (some ⟨2024, 3, 5, 10, 0, 0⟩) ⟨2024, 3, 5, 10, 0, 0⟩).map renderPath
      ≠ some "/data/Acme/P100/20240305" := by decide

/-- C1 (amended): for the ticket title `"[Acme][P100]Door sensor broken"`,
a file whose modification time is 2024-03-05 10:00, and base root
`"/data"`, `parse_ticket_title` followed by `build_target_path` yields
exactly the directory `/data/Acme/P100/Door sensor broken/20240305`,
whatever the current wall-clock time is. -/
theorem C1_end_to_end (now : DateTime) :
    (build_target_path "/data"
        (parse_ticket_title "[Acme][P100]Door sensor broken".data)
        (some ⟨2024, 3, 5, 10, 0, 0⟩) now).map renderPath
      = some "/data/Acme/P100/Door sensor broken/20240305" := by
  have hp : parse_ticket_title "[Acme][P100]Door sensor broken".data
      = some ⟨"Acme".data, "P100".data, some "Door sensor broken".data, 3⟩ := by decide
  have hd : (build_target_path "/data"
        (some ⟨"Acme".data, "P100".data, some "Door sensor broken".data, 3⟩)
        (some ⟨2024, 3, 5, 10, 0, 0⟩) ⟨2024, 3, 5, 10, 0, 0⟩).map renderPath
      = some "/data/Acme/P100/Door sensor broken/20240305" := by decide
  have hdet : build_target_path "/data"
        (some ⟨"Acme".data, "P100".data, some "Door sensor broken".data, 3⟩)
        (some ⟨2024, 3, 5, 10, 0, 0⟩) now
      = build_target_path "/data"
        (some ⟨"Acme".data, "P100".data, some "Door sensor broken".data, 3⟩)
        (some ⟨2024, 3, 5, 10, 0, 0⟩) ⟨2024, 3, 5, 10, 0, 0⟩ := rfl
  rw [hp, hdet, hd]

/-- C2: every title of shape `[A][B]rest` (non-empty bracket contents, and a
`rest` that the regex `(.+)$` can accept: newline-free and non-blank after
stripping) parses as a 3-level result with segments `A`, `B`, `rest.strip()`,
showing the 3-level pattern is tried first; a title of shape `[A]rest` on
which the 3-level pattern fails parses as a 2-level result with segments `A`
and `rest.strip()`; a title matching neither pattern yields `none`. -/
theorem C2_parse_patterns :
    (∀ A B rest, A ≠ [] → ']' ∉ A → B ≠ [] → ']' ∉ B → '\n' ∉ rest →
      pyStrip rest ≠ [] →
      parse_ticket_title ('[' :: (A ++ ']' :: ('[' :: (B ++ ']' :: rest))))
        = some ⟨A, B, some (pyStrip rest), 3⟩) ∧
    (∀ A rest, A ≠ [] → ']' ∉ A → '\n' ∉ rest → pyStrip rest ≠ [] →
      match3 (pyStrip ('[' :: (A ++ ']' :: rest))) = none →
      parse_ticket_title ('[' :: (A ++ ']' :: rest))
        = some ⟨A, pyStrip rest, none, 2⟩) ∧
    (∀ title, match3 (pyStrip title) = none → match2 (pyStrip title) = none →
      parse_ticket_title title = none) :=
  ⟨fun A B rest hA hA2 hB hB2 hr hps => parse3_spec A B rest hA hA2 hB hB2 hr hps,
   fun A rest hA hA2 hr hps hm3 => parse2_spec A rest hA hA2 hr hps hm3,
   fun title h3 h2 => parse_none_spec title h3 h2⟩

/-- Witness for C2 at the concrete titles `"[Acme][P100]Door"`,
`"[Acme]rest"` and `"no brackets"`. -/
theorem C2_parse_patterns_witness :
    parse_ticket_title ('[' :: ("Acme".data ++ ']' :: ('[' :: ("P100".data ++ ']' :: "Door".data))))
      = some ⟨"Acme".data, "P100".data, some (pyStrip "Door".data), 3⟩ ∧
    parse_ticket_title ('[' :: ("Acme".data ++ ']' :: "rest".data))
      = some ⟨"Acme".data, pyStrip "rest".data, none, 2⟩ ∧
    parse_ticket_title "no brackets".data = none :=
  ⟨C2_parse_patterns.1 "Acme".data "P100".data "Door".data (by decide) (by decide)
      (by decide) (by decide) (by decide) (by decide),
   C2_parse_patterns.2.1 "Acme".data "rest".data (by decide) (by decide) (by decide)
      (by decide) (by decide),
   C2_parse_patterns.2.2 "no brackets".data (by decide) (by decide)⟩

/-- C9: the membership test and the insert of `_on_file_created` are two
separately atomic steps with no lock around them, so two concurrent deferred
triggers for the same path can interleave as test/test/insert+callback/
insert+callback, invoking the downstream callback twice, whereas the
serialized schedule invokes it exactly once. -/
theorem C9_processed_set_race :
    (raceRun [true, false, true, false]).calls = 2 ∧
    (raceRun [true, true, false, false]).calls = 1 := by decide

/-- C3 counterexample: when the timestamp-suffixed name itself is already
occupied at the destination, `move_file` does not re-check and the
`shutil.move` fallback overwrites the existing file: with
`f_20240305_100000.txt` (contents 3) already present, the move succeeds
onto that very path and the entry with contents 3 is gone, so an existing
file is silently overwritten, refuting the claim's universal guarantee. -/
theorem C3_move_collision_counterexample :
    (move_file [(["down", "f.txt"], 1), (["dest", "f.txt"], 2),
        (["dest", "f_20240305_100000.txt"], 3)] ⟨2024, 3, 5, 10, 0, 0⟩ none
        ["down", "f.txt"] ["dest"]).2
      = MoveResult.ok ["dest", "f_20240305_100000.txt"] ∧
    ((["dest", "f_20240305_100000.txt"], 3) ∈
      ([(["down", "f.txt"], 1), (["dest", "f.txt"], 2),
        (["dest", "f_20240305_100000.txt"], 3)] : FileSys)) ∧
    ["dest", "f_20240305_100000.txt"] ≠ ["down", "f.txt"] ∧
    ((["dest", "f_20240305_100000.txt"], 3) ∉
      (move_file [(["down", "f.txt"], 1), (["dest", "f.txt"], 2),
        (["dest", "f_20240305_100000.txt"], 3)] ⟨2024, 3, 5, 10, 0, 0⟩ none
        ["down", "f.txt"] ["dest"]).1) := by decide

/-- C3 (amended): when the source exists, a same-named file already exists
at the destination, and the timestamp-suffixed path is not itself occupied,
`move_file` moves the source to the `_YYYYMMDD_HHMMSS`-suffixed path, which
is distinct from the original target path; the pre-existing file at the
original target (and every other file apart from the source) is left
untouched, and the suffixed target now exists. -/
theorem C3_move_collision (fs : FileSys) (now : DateTime) (src tgtdir : FsPath)
    (hsrc : pexists fs src = true)
    (hne0 : src ≠ tgtdir ++ [basename src])
    (htgt : pexists fs (tgtdir ++ [basename src]) = true)
    (hsuf : pexists fs (tgtdir ++ [suffixedName now (basename src)]) = false) :
    (move_file fs now none src tgtdir).2
        = MoveResult.ok (tgtdir ++ [suffixedName now (basename src)]) ∧
    tgtdir ++ [suffixedName now (basename src)] ≠ tgtdir ++ [basename src] ∧
    (∀ e ∈ fs, e.1 ≠ src → e ∈ (move_file fs now none src tgtdir).1) ∧
    pexists (move_file fs now none src tgtdir).1 (tgtdir ++ [basename src]) = true ∧
    pexists (move_file fs now none src tgtdir).1
        (tgtdir ++ [suffixedName now (basename src)]) = true := by
  have hmf : move_file fs now none src tgtdir
      = (shutil_move fs src (tgtdir ++ [suffixedName now (basename src)]),
         MoveResult.ok (tgtdir ++ [suffixedName now (basename src)])) := by
    simp [move_file, hsrc, htgt]
  have hdist : tgtdir ++ [suffixedName now (basename src)] ≠ tgtdir ++ [basename src] := by
    intro h
    have h2 : [suffixedName now (basename src)] = [basename src] :=
      List.append_cancel_left h
    have h3 : suffixedName now (basename src) = basename src := by
      injection h2
    exact suffixedName_ne now (basename src) h3
  rcases shutil_move_spec fs src (tgtdir ++ [suffixedName now (basename src)]) hsrc
    with ⟨c, hsm⟩
  have hmem : ∀ e ∈ fs, e.1 ≠ src → e ∈ (move_file fs now none src tgtdir).1 := by
    intro e he hne
    have het : e.1 ≠ tgtdir ++ [suffixedName now (basename src)] := by
      intro heq
      have : pexists fs (tgtdir ++ [suffixedName now (basename src)]) = true :=
        List.any_eq_true.mpr ⟨e, he, by rw [heq]; exact beq_self_eq_true _⟩
      rw [this] at hsuf
      cases hsuf
    rw [hmf]
    show e ∈ shutil_move fs src (tgtdir ++ [suffixedName now (basename src)])
    rw [hsm]
    refine List.mem_append.mpr (Or.inl (List.mem_filter.mpr ⟨he, ?_⟩))
    have h1 : (e.1 != src) = true := bne_iff_ne.mpr hne
    have h2 : (e.1 != tgtdir ++ [suffixedName now (basename src)]) = true :=
      bne_iff_ne.mpr het
    rw [h1, h2]
    rfl
  refine ⟨by rw [hmf], hdist, hmem, ?_, ?_⟩
  · rcases List.any_eq_true.mp htgt with ⟨et, het, hbeq⟩
    have heq : et.1 = tgtdir ++ [basename src] := by
      exact eq_of_beq hbeq
    have hets : et.1 ≠ src := by
      rw [heq]
      intro h
      exact hne0 h.symm
    have : et ∈ (move_file fs now none src tgtdir).1 := hmem et het hets
    exact List.any_eq_true.mpr ⟨et, this, by rw [heq]; exact beq_self_eq_true _⟩
  · rw [hmf]
    show pexists (shutil_move fs src (tgtdir ++ [suffixedName now (basename src)])) _ = true
    rw [hsm]
    refine List.any_eq_true.mpr
      ⟨(tgtdir ++ [suffixedName now (basename src)], c), ?_, ?_⟩
    · exact List.mem_append.mpr (Or.inr (by simp))
    · simp

/-- Witness for C3 at a concrete two-file filesystem with a same-named file
at the destination. -/
theorem C3_move_collision_witness :
    (move_file [(["down", "f.txt"], 1), (["dest", "f.txt"], 2)]
        ⟨2024, 3, 5, 10, 0, 0⟩ none ["down", "f.txt"] ["dest"]).2
      = MoveResult.ok (["dest"] ++
          [suffixedName ⟨2024, 3, 5, 10, 0, 0⟩ (basename ["down", "f.txt"])]) ∧
    pexists (move_file [(["down", "f.txt"], 1), (["dest", "f.txt"], 2)]
        ⟨2024, 3, 5, 10, 0, 0⟩ none ["down", "f.txt"] ["dest"]).1
        (["dest"] ++ [basename ["down", "f.txt"]]) = true :=
  ⟨(C3_move_collision [(["down", "f.txt"], 1), (["dest", "f.txt"], 2)]
      ⟨2024, 3, 5, 10, 0, 0⟩ ["down", "f.txt"] ["dest"] (by decide) (by decide)
      (by decide) (by decide)).1,
   (C3_move_collision [(["down", "f.txt"], 1), (["dest", "f.txt"], 2)]
      ⟨2024, 3, 5, 10, 0, 0⟩ ["down", "f.txt"] ["dest"] (by decide) (by decide)
      (by decide) (by decide)).2.2.2.1⟩

/-- C4: `build_target_path` concatenates base, the two or three label
segments, and the `YYYYMMDD` date folder, where the date comes from the
file's own modification time when the file exists and from the current
wall-clock time otherwise; with a modification time present the result does
not depend on the wall clock, so identical (labels, mtime) inputs always
yield the identical target directory. -/
theorem C4_build_target_path :
    (∀ base f1 f2 f3 mt now,
      build_target_path base (some ⟨f1, f2, some f3, 3⟩) (some mt) now
        = some [base, f1.asString, f2.asString, f3.asString, fmtDate mt]) ∧
    (∀ base f1 f2 f3o mt now,
      build_target_path base (some ⟨f1, f2, f3o, 2⟩) (some mt) now
        = some [base, f1.asString, f2.asString, fmtDate mt]) ∧
    (∀ base f1 f2 f3 now,
      build_target_path base (some ⟨f1, f2, some f3, 3⟩) none now
        = some [base, f1.asString, f2.asString, f3.asString, fmtDate now]) ∧
    (∀ base f1 f2 f3o now,
      build_target_path base (some ⟨f1, f2, f3o, 2⟩) none now
        = some [base, f1.asString, f2.asString, fmtDate now]) ∧
    (∀ base pt mt now now2,
      build_target_path base pt (some mt) now
        = build_target_path base pt (some mt) now2) := by
  refine ⟨?_, ?_, ?_, ?_, ?_⟩
  · intro base f1 f2 f3 mt now
    rfl
  · intro base f1 f2 f3o mt now
    rfl
  · intro base f1 f2 f3 now
    rfl
  · intro base f1 f2 f3o now
    rfl
  · intro base pt mt now now2
    cases pt with
    | none => rfl
    | some p => rfl

/-- C5: claiming the same existing, not-yet-seen path twice in immediate
succession against the processed set returns `(true, false)`: the first
call of `_on_file_created` forwards the path downstream, the second is a
no-op. -/
theorem C5_claim_twice (ex : String → Bool) (st : MonitorState) (p : String)
    (h1 : st.processed_files.contains p = false) (h2 : ex p = true) :
    (on_file_created ex st p).2 = true ∧
    (on_file_created ex (on_file_created ex st p).1 p).2 = false := by
  have hfirst : on_file_created ex st p
      = ({ processed_files := p :: st.processed_files }, true) := by
    unfold on_file_created
    rw [h1, h2]
    simp
  refine ⟨by rw [hfirst], ?_⟩
  rw [hfirst]
  simp [on_file_created]

/-- Witness for C5 at the empty processed set and path `"a"`. -/
theorem C5_claim_twice_witness :
    (on_file_created (fun _ => true) ⟨[]⟩ "a").2 = true ∧
    (on_file_created (fun _ => true)
        ((on_file_created (fun _ => true) ⟨[]⟩ "a").1) "a").2 = false :=
  C5_claim_twice (fun _ => true) ⟨[]⟩ "a" rfl rfl

/-- C6: `_is_file_ready` returns true iff both size reads succeed, the two
sizes are equal, and the size is strictly positive; a failed second read
(file deleted mid-probe) or a failed first read yields false, and a
zero-byte file is never reported ready. -/
theorem C6_is_file_ready_iff :
    (∀ s1 s2, is_file_ready s1 s2 = true ↔ ∃ n, s1 = some n ∧ s2 = some n ∧ 0 < n) ∧
    (∀ s1, is_file_ready s1 none = false) ∧
    (∀ s2, is_file_ready none s2 = false) ∧
    (∀ n, is_file_ready (some n) (some 0) = false) := by
  refine ⟨?_, ?_, ?_, ?_⟩
  · intro s1 s2
    cases s1 with
    | none => simp [is_file_ready]
    | some a =>
      cases s2 with
      | none => simp [is_file_ready]
      | some b =>
        simp only [is_file_ready, Bool.and_eq_true, beq_iff_eq, decide_eq_true_eq,
          Option.some.injEq]
        constructor
        · rintro ⟨h1, h2⟩
          exact ⟨b, h1, rfl, h2⟩
        · rintro ⟨n, h1, h2, h3⟩
          subst h1
          subst h2
          exact ⟨rfl, h3⟩
  · intro s1
    cases s1 <;> rfl
  · intro s2
    rfl
  · intro n
    simp [is_file_ready]

/-- C7: when the settle probe fails on all 10 bounded attempts,
`_process_file` returns without invoking the callback and without raising;
a successful callback can only come from one of the first 10 attempts. -/
theorem C7_settle_rejected :
    (∀ isfile ready, (∀ i, i < 10 → ready i = false) →
      process_file isfile ready = none) ∧
    (∀ isfile ready j, process_file isfile ready = some j → j < 10) := by
  constructor
  · intro b ready h
    unfold process_file
    cases b
    · rfl
    · simp only [if_true]
      exact settleAttempts_none ready 10 0 (fun j h1 h2 => h j (by omega))
  · intro b ready j h
    unfold process_file at h
    cases b
    · simp at h
    · simp only [if_true] at h
      have := settleAttempts_lt ready 10 0 j h
      omega

/-- Witness for C7: an always-failing probe yields no callback; an
immediately-ready probe fires at attempt 0 < 10. -/
theorem C7_settle_rejected_witness :
    process_file true (fun _ => false) = none ∧ (0 : Nat) < 10 :=
  ⟨C7_settle_rejected.1 true (fun _ => false) (fun _ _ => rfl),
   C7_settle_rejected.2 true (fun _ => true) 0 rfl⟩

/-- C8: a move that fails returns a failure result carrying the cause as a
message instead of propagating an exception, leaves the filesystem (hence
the source file) unchanged, and performs no retry: a vanished source yields
the fixed not-found message, and an exception raised by `shutil.move`
yields its message. -/
theorem C8_move_failure :
    (∀ fs now r src tgtdir, pexists fs src = false →
      move_file fs now r src tgtdir
        = (fs, MoveResult.err "元ファイルが見つかりません")) ∧
    (∀ fs now msg src tgtdir, pexists fs src = true →
      move_file fs now (some msg) src tgtdir = (fs, MoveResult.err msg)) := by
  constructor
  · intro fs now r src tgtdir h
    simp [move_file, h]
  · intro fs now msg src tgtdir h
    simp [move_file, h]

/-- Witness for C8 at a missing source and at an injected move exception. -/
theorem C8_move_failure_witness :
    move_file [] ⟨2024, 3, 5, 10, 0, 0⟩ none ["x"] ["d"]
      = ([], MoveResult.err "元ファイルが見つかりません") ∧
    move_file [(["x"], 1)] ⟨2024, 3, 5, 10, 0, 0⟩ (some "Permission denied") ["x"] ["d"]
      = ([(["x"], 1)], MoveResult.err "Permission denied") :=
  ⟨C8_move_failure.1 [] ⟨2024, 3, 5, 10, 0, 0⟩ none ["x"] ["d"] rfl,
   C8_move_failure.2 [(["x"], 1)] ⟨2024, 3, 5, 10, 0, 0⟩ "Permission denied" ["x"] ["d"]
     rfl⟩

/-- C10 counterexample: with bracket contents `B = "\n"` (non-empty and
`]`-free), the claim fails: `(.+)` cannot cross a newline, so
`parse_ticket_title "[A][\n]"` returns `none` rather than the claimed
2-level result. -/
theorem C10_brackets_only_counterexample :
    "A".data ≠ [] ∧ "\n".data ≠ [] ∧ ']' ∉ "A".data ∧ ']' ∉ "\n".data ∧
    parse_ticket_title ('[' :: ("A".data ++ ']' :: ('[' :: ("\n".data ++ [']']))))
      = none ∧
    parse_ticket_title ('[' :: ("A".data ++ ']' :: ('[' :: ("\n".data ++ [']']))))
      ≠ some ⟨"A".data, '[' :: ("\n".data ++ [']']), none, 2⟩ := by decide

/-- C10 (amended): a title made only of two bracket groups with non-empty,
`]`-free contents, the second newline-free, parses as a 2-level result
whose second segment is the second group with its brackets kept; a title
that is a single bracket group parses as `none`. -/
theorem C10_brackets_only :
    (∀ A B, A ≠ [] → ']' ∉ A → B ≠ [] → ']' ∉ B → '\n' ∉ B →
      parse_ticket_title ('[' :: (A ++ ']' :: ('[' :: (B ++ [']']))))
        = some ⟨A, '[' :: (B ++ [']']), none, 2⟩) ∧
    (∀ A, A ≠ [] → ']' ∉ A → parse_ticket_title ('[' :: (A ++ [']'])) = none) :=
  ⟨fun A B hA hA2 hB hB2 hB3 => parse_brackets2_spec A B hA hA2 hB hB2 hB3,
   fun A hA hA2 => parse_brackets1_spec A hA hA2⟩

/-- Witness for C10 at the concrete titles `"[Acme][P100]"` and `"[Acme]"`. -/
theorem C10_brackets_only_witness :
    parse_ticket_title ('[' :: ("Acme".data ++ ']' :: ('[' :: ("P100".data ++ [']']))))
      = some ⟨"Acme".data, '[' :: ("P100".data ++ [']']), none, 2⟩ ∧
    parse_ticket_title ('[' :: ("Acme".data ++ [']'])) = none :=
  ⟨C10_brackets_only.1 "Acme".data "P100".data (by decide) (by decide) (by decide)
      (by decide) (by decide),
   C10_brackets_only.2 "Acme".data (by decide) (by decide)⟩

end FileMove
